import Mathlib

/-!
Shallow embedding of the Cardinal ticker plugin
(`plugins/ticker/plugin.py`) together with proofs about its behaviour.

Conventions of the embedding:
* Python floats are modelled as rationals (`ℚ`).  Division is total in
  Lean (`x / 0 = 0`) where CPython would raise `ZeroDivisionError`.
* Calendar dates (EST days) are modelled as integers: `d - 1` is the
  previous calendar day, mirroring `datetime.timedelta(days=1)`.
* Python dicts keyed by strings are modelled as association lists in
  insertion order; `dlookup` is `dict.get`, `dictSet` is `dict[k] = v`.
* Network requests are modelled by a function from the attempt index to
  the outcome of that attempt; a raised exception is `Except.error` carrying
  the CPython error text.
-/

namespace Ticker

/-- MAX_RETRIES from the source (its own comment notes that it is
actually the maximum number of tries, not of retries). -/
def MAX_RETRIES : Nat := 3

/-- RETRY_WAIT from the source: seconds slept between attempts. -/
def RETRY_WAIT : Nat := 15

/-- get_delta from the source:
`return float(new_value) / float(old_value) * 100 - 100`. -/
def get_delta (new_value old_value : ℚ) : ℚ :=
  new_value / old_value * 100 - 100

/-- Rendering of a rational with two decimal places, modelling the
Python format spec used in `colorize`.  The integer of hundredths is
⌊q·100 + 1/2⌋, computed directly on the reduced numerator and
denominator (Python rounds the IEEE-754 double half-to-even; the
tie-breaking rule and the sign of a negative zero are immaterial to
every claim treated here). -/
def formatFixed2 (q : ℚ) : String :=
  let n : ℤ := Int.fdiv (200 * q.num + (q.den : ℤ)) (2 * (q.den : ℤ))
  let sign := if n < 0 then "-" else ""
  let m := n.natAbs
  sign ++ toString (m / 100) ++ "." ++
    (if m % 100 < 10 then "0" else "") ++ toString (m % 100)

/-- colorize from the source: green mIRC colour 09 for a positive
percentage, red colour 04 otherwise. -/
def colorize (percentage : ℚ) : String :=
  if percentage > 0 then "\x0309" ++ formatFixed2 percentage ++ "%\x03"
  else "\x0304" ++ formatFixed2 percentage ++ "%\x03"

/-- Lookup in an insertion-ordered association list, modelling
`dict.get(key)` for string-keyed Python dicts. -/
def dlookup {β : Type} : List (String × β) → String → Option β
  | [], _ => none
  | (k, v) :: rest, key => if key = k then some v else dlookup rest key

/-- Assignment `m[k] = v` on a string-keyed Python dict: replaces the
value in place when the key exists, otherwise appends the new pair at
the end (insertion order). -/
def dictSet {β : Type} : List (String × β) → String → β → List (String × β)
  | [], k, v => [(k, v)]
  | (k0, v0) :: rest, k, v =>
    if k0 = k then (k, v) :: rest else (k0, v0) :: dictSet rest k v

/-- A single day entry of the (prefix-stripped) `Time Series (Daily)`
response: the values of its `open` and `close` keys. -/
structure DayData where
  «open» : ℚ
  close : ℚ
deriving DecidableEq

/-- The dictionary returned by `get_daily`. -/
structure DailyResult where
  current : ℚ
  close : ℚ
  «open» : ℚ
  percentage : ℚ
deriving DecidableEq

/-- The backward date search of `get_daily`:
`while data.get(day) is None and count < 5: count += 1; day -= 1`.
`remaining` is `5 - count`, so the initial call passes `5`. -/
def searchLoop (data : ℤ → Option DayData) : ℤ → Nat → ℤ
  | today, remaining =>
    if data today = none then
      match remaining with
      | 0 => today
      | r + 1 => searchLoop data (today - 1) r
    else today

/-- get_daily from the source, abstracted over the already-parsed time
series `data` and the current EST date `now`.  Note the source computes
`get_delta(last_day_value[close], current_value[close])`: the close of
the previous day is passed as `new_value` and the current close as
`old_value`. -/
def get_daily (data : ℤ → Option DayData) (now : ℤ) :
    Except String DailyResult :=
  match data (searchLoop data now 5) with
  | none =>
      Except.error ("Cannot find data as far back as "
        ++ toString (searchLoop data now 5))
  | some current_value =>
    match data (searchLoop data (searchLoop data now 5 - 1) 5) with
    | none =>
        Except.error ("Cannot find data as far back as "
          ++ toString (searchLoop data (searchLoop data now 5 - 1) 5))
    | some last_day_value =>
        Except.ok { current := current_value.close
                  , close := current_value.close
                  , «open» := current_value.«open»
                  , percentage :=
                      get_delta last_day_value.close current_value.close }

/-- Observable trace of one `make_av_request` run: how many HTTP
requests were made, the seconds slept between them, and the returned
value or the raised exception. -/
structure AVTrace where
  requests : Nat
  sleeps : List Nat
  outcome : Except String ℚ

/-- The retry loop of `make_av_request`.  `attempt i` is the outcome of
the `i`-th HTTP request (the parsed response body abstracted as a
rational).  Entering the loop with `retries_remaining = 0` would fall
through to `defer.returnValue(result)` with `result` unbound, which
CPython reports as a NameError; this is unreachable from
`make_av_request` since `MAX_RETRIES = 3`. -/
def avLoop (attempt : Nat → Except String ℚ) :
    Nat → Nat → List Nat → AVTrace
  | 0, made, slept =>
      ⟨made, slept, Except.error "NameError: name result is not defined"⟩
  | rr + 1, made, slept =>
    match attempt made with
    | Except.ok r => ⟨made + 1, slept, Except.ok r⟩
    | Except.error e =>
      if rr = 0 then ⟨made + 1, slept, Except.error e⟩
      else avLoop attempt rr (made + 1) (slept ++ [RETRY_WAIT])

/-- make_av_request from the source: run the retry loop starting with
`retries_remaining = MAX_RETRIES`, no request made and no sleep yet. -/
def make_av_request (attempt : Nat → Except String ℚ) : AVTrace :=
  avLoop attempt MAX_RETRIES 0 []

/-- format_symbol from the source:
`"{name} (\x02{symbol}\x02): {change}"` with `name` looked up in the
configured stocks dict (the lookup cannot miss at the call site, so the
default is immaterial). -/
def format_symbol (stocks : List (String × String)) (symbol : String)
    (change : ℚ) : String :=
  (dlookup stocks symbol).getD "" ++ " (\x02" ++ symbol ++ "\x02): "
    ++ colorize change

/-- The result-collection loop of `send_ticker` over the
`DeferredList` outcomes, in stock order.  On a failed fetch the source
evaluates
`"Error fetching symbol {} for ticker -- skipping: {}".format(msg)` —
two replacement fields but a single argument — so CPython raises
IndexError there (the following `del results[symbol]` is unreachable).
On success it rebinds `symbol, change = result`; the accumulator is the
value those names hold after the loop. -/
def sendTickerLoop :
    List (Except String (String × ℚ)) → Option (String × ℚ) →
    Except String (Option (String × ℚ))
  | [], acc => Except.ok acc
  | Except.error _ :: _, _ =>
      Except.error
        "IndexError: Replacement index 1 out of range for positional args tuple"
  | Except.ok sc :: rest, _ => sendTickerLoop rest (some sc)

/-- send_ticker from the source, abstracted over the per-symbol fetch.
Returns the list of (channel, message) pairs sent, or the exception
that escaped.  The message loop reads the stale local `change` left
over from the collection loop (the loop variable there is `result`), so
every entry is formatted with the last fetched change; with a non-empty
stock list whose collection loop never ran a success branch, `change`
would be unbound (NameError). -/
def send_ticker (stocks : List (String × String)) (channels : List String)
    (fetch : String → Except String ℚ) :
    Except String (List (String × String)) :=
  let dl := stocks.map (fun p => (fetch p.1).map (fun change => (p.1, change)))
  match sendTickerLoop dl none with
  | Except.error e => Except.error e
  | Except.ok leaked =>
    match stocks, leaked with
    | [], _ => Except.ok (channels.map (fun c => (c, "")))
    | _ :: _, none => Except.error "NameError: name change is not defined"
    | _ :: _, some (_, change) =>
      let message := String.intercalate " | "
        (stocks.map (fun p => format_symbol stocks p.1 change))
      Except.ok (channels.map (fun c => (c, message)))

/-- A stored prediction: (EST timestamp, base price, predicted price). -/
abbrev Pred := ℤ × ℚ × ℚ

/-- predictions: a `defaultdict(dict)` mapping symbol → nick → Pred. -/
abbrev Predictions := List (String × List (String × Pred))

/-- Read `predictions[symbol][nick]`, `none` when either key misses. -/
def pLookup (preds : Predictions) (symbol nick : String) : Option Pred :=
  (dlookup preds symbol).bind (fun inner => dlookup inner nick)

/-- save_prediction from the source:
`self.predictions[symbol][nick] = (est_now(), base, prediction)` where
the outer `defaultdict` materialises an empty inner dict for a new
symbol.  `now` stands for `est_now()`. -/
def save_prediction (preds : Predictions) (symbol nick : String)
    (now : ℤ) (base prediction : ℚ) : Predictions :=
  dictSet preds symbol
    (dictSet ((dlookup preds symbol).getD []) nick (now, base, prediction))

/-- The body of `predict` after `parse_prediction` succeeded, returning
the updated predictions and the confirmation message, or the exception
that escaped.  When the user already has a prediction for the symbol,
the `else` branch formats `old_str` using `old_datetime` — a name that
is never bound (the unpacked variable is `dt`) — so CPython raises
NameError before anything is saved or sent. -/
def predict (preds : Predictions) (symbol nick : String) (now : ℤ)
    (base prediction : ℚ) (is_open : Bool) :
    Except String (Predictions × String) :=
  match pLookup preds symbol nick with
  | none =>
    let old_str := ""
    Except.ok (save_prediction preds symbol nick now base prediction,
      "Prediction by " ++ nick ++ " for \x02" ++ symbol ++ "\x02 at market "
        ++ (if is_open then "close" else "open") ++ ": "
        ++ formatFixed2 prediction ++ " ("
        ++ colorize (get_delta prediction base) ++ ") " ++ old_str)
  | some _ =>
      Except.error "NameError: name old_datetime is not defined"

/-- send_prediction from the source: one message per channel reporting
the stored prediction of a nick against the actual value.  The call sites
only pass nicks present in `predictions[symbol]`, so the `none` branch
(a KeyError in Python) never fires there. -/
def send_prediction (channels : List String) (preds : Predictions)
    (nick symbol : String) (actual : ℚ) (is_open : Bool) :
    List (String × String) :=
  let market_open_close := if is_open then "open" else "close"
  match pLookup preds symbol nick with
  | none => []
  | some (dt, base, prediction) =>
    channels.map (fun channel => (channel,
      "Prediction by " ++ nick ++ " for \x02" ++ symbol ++ "\x02: "
        ++ formatFixed2 prediction ++ " ("
        ++ colorize (get_delta prediction base) ++ "). Actual value at "
        ++ market_open_close ++ ": " ++ formatFixed2 actual ++ " ("
        ++ colorize (get_delta actual base) ++ "). Prediction set at "
        ++ toString dt ++ "."))

/-- The per-nick loop of `do_predictions` for one symbol: tracks the
closest (prediction, delta, nick) seen so far and emits the
`send_prediction` messages.  The source guard is
`if not closest_delta or delta < closest_delta`, where `not` applies
Python truthiness: `None` and `0.0` are both falsy. -/
def predLoop (channels : List String) (preds : Predictions)
    (symbol : String) (actual : ℚ) (is_open : Bool) :
    List (String × Pred) → (Option ℚ × Option ℚ × Option String) →
    List (String × String) →
    ((Option ℚ × Option ℚ × Option String) × List (String × String))
  | [], acc, msgs => (acc, msgs)
  | (nick, (_, _, prediction)) :: rest, (cp, cd, cn), msgs =>
    let delta := |actual - prediction|
    let takeIt : Bool :=
      match cd with
      | none => true
      | some c => decide (c = 0) || decide (delta < c)
    let acc2 := if takeIt then (some prediction, some delta, some nick)
                else (cp, cd, cn)
    predLoop channels preds symbol actual is_open rest acc2
      (msgs ++ send_prediction channels preds nick symbol actual is_open)

/-- do_predictions from the source, abstracted over the per-symbol
fetch (`get_daily`) and over whether the market is open.  Per-symbol
fetch failures are caught, reported to every channel and skipped
(`continue`); after the loop the predictions mapping is reassigned to a
fresh empty `defaultdict(dict)`.  `get_delta` on the closest guess is
total here where CPython could raise on a zero actual value; an empty
inner dict (impossible via `save_prediction`) would make
`closest_prediction` stay `None`, rendered as the default below. -/
def do_predictions (preds : Predictions) (channels : List String)
    (fetch : String → Except String DailyResult) (is_open : Bool) :
    List (String × String) × Predictions :=
  let msgs := preds.foldl (fun msgs entry =>
    match fetch entry.1 with
    | Except.error _ =>
        msgs ++ channels.map (fun c =>
          (c, "Error with predictions for symbol " ++ entry.1 ++ "."))
    | Except.ok data =>
      let actual := if is_open then data.«open» else data.close
      let r := predLoop channels preds entry.1 actual is_open entry.2
        (none, none, none) msgs
      r.2 ++ channels.map (fun channel => (channel,
        (r.1.2.2.getD "None") ++ " had the closest guess for \x02"
          ++ entry.1 ++ "\x02 out of " ++ toString entry.2.length
          ++ " predictions with a prediction of "
          ++ (match r.1.1 with
              | some p => formatFixed2 p
              | none => "None") ++ " ("
          ++ colorize (get_delta (r.1.1.getD 0) actual) ++ ")."))
    ) []
  (msgs, ([] : Predictions))

/-- The ticker plugin configuration after the `setdefault` calls of the
constructor: a missing `api_key` is `none`, the collections default to
empty. -/
structure TickerConfig where
  api_key : Option String
  channels : List String
  stocks : List (String × String)
  relay_bots : List (Option String × Option String × Option String)

/-- The validation performed by `TickerPlugin.__init__`:
`if not self.config["api_key"]` (falsy: missing or empty string) raises
KeyError, then more than 5 stocks raises ValueError; building the
relay-bot list and scheduling the first tick cannot raise. -/
def plugin_init (config : TickerConfig) : Except String TickerConfig :=
  if config.api_key.getD "" = "" then
    Except.error "KeyError: Missing required api_key in ticker config"
  else if 5 < config.stocks.length then
    Except.error
      "ValueError: No more than 5 stocks may be present in ticker config"
  else Except.ok config

/-- Concrete two-day time series for C1: the previous trading day
closed at 100, the most recent day closed at 110 (opened at 105). -/
def C1data : ℤ → Option DayData := fun d =>
  if d = 0 then some ⟨105, 110⟩
  else if d = -1 then some ⟨99, 100⟩
  else none

/-- An attempt oracle whose every request fails. -/
def C2fail : Nat → Except String ℚ := fun i =>
  Except.error ("error " ++ toString i)

/-- Concrete stock configuration: AAPL and MSFT. -/
def C4stocks : List (String × String) :=
  [("AAPL", "Apple"), ("MSFT", "Microsoft")]

/-- Fetch oracle for C4: AAPL fails (after its retries), MSFT comes
back with a daily change of 2. -/
def C4fetch : String → Except String ℚ := fun s =>
  if s = "AAPL" then Except.error "Connection timed out" else Except.ok 2

/-- Fetch oracle for C8: both fetches succeed with different changes
(AAPL moved 1, MSFT moved 2). -/
def C8fetch : String → Except String ℚ := fun s =>
  if s = "AAPL" then Except.ok 1 else Except.ok 2

/-- A configuration with an api_key and six stocks. -/
def C6config : TickerConfig :=
  { api_key := some "demo"
  , channels := ["#finance"]
  , stocks := [("A", "A1"), ("B", "B2"), ("C", "C3"), ("D", "D4"),
               ("E", "E5"), ("F", "F6")]
  , relay_bots := [] }

/-- A predictions store where alice already predicted 110 for AAPL. -/
def C9preds : Predictions := save_prediction [] "AAPL" "alice" 0 100 110

/-! ### Helper lemmas about the backward date search -/

theorem searchLoop_zero (data : ℤ → Option DayData) (today : ℤ) :
    searchLoop data today 0 = today := by
  rw [searchLoop]
  split <;> rfl

theorem searchLoop_succ (data : ℤ → Option DayData) (today : ℤ) (r : Nat) :
    searchLoop data today (r + 1) =
      if data today = none then searchLoop data (today - 1) r else today := by
  rw [searchLoop]

theorem searchLoop_le (data : ℤ → Option DayData) (r : Nat) :
    ∀ today : ℤ, searchLoop data today r ≤ today := by
  induction r with
  | zero => intro today; rw [searchLoop_zero]
  | succ r ih =>
    intro today
    rw [searchLoop_succ]
    split
    · have := ih (today - 1); omega
    · omega

theorem searchLoop_ge (data : ℤ → Option DayData) (r : Nat) :
    ∀ today : ℤ, today - r ≤ searchLoop data today r := by
  induction r with
  | zero => intro today; rw [searchLoop_zero]; omega
  | succ r ih =>
    intro today
    rw [searchLoop_succ]
    split
    · have := ih (today - 1); omega
    · omega

theorem searchLoop_skipped (data : ℤ → Option DayData) (r : Nat) :
    ∀ today d : ℤ, searchLoop data today r < d → d ≤ today →
      data d = none := by
  induction r with
  | zero =>
    intro today d h1 h2
    rw [searchLoop_zero] at h1
    omega
  | succ r ih =>
    intro today d h1 h2
    rw [searchLoop_succ] at h1
    by_cases hd : data today = none
    · rw [if_pos hd] at h1
      rcases eq_or_lt_of_le h2 with rfl | hlt
      · exact hd
      · exact ih (today - 1) d h1 (by omega)
    · rw [if_neg hd] at h1
      omega

theorem searchLoop_all_none (data : ℤ → Option DayData) (r : Nat) :
    ∀ today : ℤ, data (searchLoop data today r) = none →
      ∀ d, today - r ≤ d → d ≤ today → data d = none := by
  induction r with
  | zero =>
    intro today h d h1 h2
    rw [searchLoop_zero] at h
    have : d = today := by omega
    rwa [this]
  | succ r ih =>
    intro today h d h1 h2
    rw [searchLoop_succ] at h
    by_cases hd : data today = none
    · rw [if_pos hd] at h
      rcases eq_or_lt_of_le h2 with rfl | hlt
      · exact hd
      · exact ih (today - 1) h d (by omega)
          (by omega)
    · rw [if_neg hd] at h
      exact absurd h hd

theorem searchLoop_eq_of_max (data : ℤ → Option DayData) (r : Nat) :
    ∀ today d1 : ℤ, today - r ≤ d1 → d1 ≤ today →
      (data d1).isSome = true →
      (∀ d, d1 < d → d ≤ today → data d = none) →
      searchLoop data today r = d1 := by
  induction r with
  | zero =>
    intro today d1 h1 h2 _ _
    rw [searchLoop_zero]
    omega
  | succ r ih =>
    intro today d1 h1 h2 h3 h4
    rw [searchLoop_succ]
    by_cases hd : data today = none
    · rw [if_pos hd]
      have hne : d1 ≠ today := by
        intro he
        rw [he, hd] at h3
        simp at h3
      exact ih (today - 1) d1 (by omega)
        (by omega) h3 (fun d hda hdb => h4 d hda (by omega))
    · rw [if_neg hd]
      rcases eq_or_lt_of_le h2 with he | hlt
      · exact he.symm
      · exact absurd (h4 today hlt le_rfl) hd

/-! ### Helper lemmas about dict lookup and assignment -/

theorem dlookup_dictSet_self {β : Type} (m : List (String × β))
    (k : String) (v : β) : dlookup (dictSet m k v) k = some v := by
  induction m with
  | nil => simp [dictSet, dlookup]
  | cons a rest ih =>
    obtain ⟨k0, v0⟩ := a
    by_cases h0 : k0 = k
    · rw [dictSet, if_pos h0, dlookup, if_pos rfl]
    · rw [dictSet, if_neg h0, dlookup, if_neg (fun he => h0 he.symm)]
      exact ih

theorem dlookup_dictSet_ne {β : Type} (m : List (String × β))
    (k k' : String) (v : β) (h : k' ≠ k) :
    dlookup (dictSet m k v) k' = dlookup m k' := by
  induction m with
  | nil => simp [dictSet, dlookup, if_neg h]
  | cons a rest ih =>
    obtain ⟨k0, v0⟩ := a
    by_cases h0 : k0 = k
    · subst h0
      rw [dictSet, if_pos rfl, dlookup, if_neg h, dlookup, if_neg h]
    · rw [dictSet, if_neg h0, dlookup, dlookup]
      by_cases hk : k' = k0
      · rw [if_pos hk, if_pos hk]
      · rw [if_neg hk, if_neg hk]
        exact ih

/-! ### The claims -/

/-- C1: the daily percentage change posted for a symbol is claimed to be
(current close / previous close) * 100 - 100.  The source instead calls
`get_delta(last_day_value[close], current_value[close])`, passing the
arguments swapped against the parameter names of `get_delta`: with a
previous close of 100 and a current close of 110, `get_daily` reports
100/110*100 - 100 = -100/11 ≈ -9.09 where the claimed value is +10. -/
theorem C1_inverted_delta_eval :
    get_daily C1data 0
      = Except.ok { current := 110, close := 110, «open» := 105,
                    percentage := get_delta 100 110 }
    ∧ get_delta 110 100 = 10
    ∧ get_delta 100 110 = -100 / 11
    ∧ get_delta 100 110 ≠ get_delta 110 100 := by
  refine ⟨rfl, by norm_num [get_delta], by norm_num [get_delta],
    by norm_num [get_delta]⟩

/-- C2 counterexample: the claim says a failed request is retried up to
3 times, i.e. up to 1 + MAX_RETRIES = 4 requests in all.  With every
attempt failing, `make_av_request` performs exactly 3 requests (the
loop counts tries, not retries), sleeps twice, and raises the
exception of the third attempt. -/
theorem C2_three_tries_not_four :
    (make_av_request C2fail).requests = MAX_RETRIES
    ∧ ¬((make_av_request C2fail).requests = 1 + MAX_RETRIES)
    ∧ (make_av_request C2fail).sleeps = [RETRY_WAIT, RETRY_WAIT]
    ∧ (make_av_request C2fail).outcome = Except.error "error 2" :=
  ⟨rfl, by decide, rfl, rfl⟩

/-- C2 (amended): `make_av_request` makes between 1 and 3 requests in
total (an initial try plus at most 2 retries), sleeps a fixed
RETRY_WAIT = 15 seconds between consecutive requests, returns the
outcome of the last request made, only makes a further request after a
failure, and raises only when all MAX_RETRIES = 3 requests failed. -/
theorem C2_retry_behavior (attempt : Nat → Except String ℚ) :
    1 ≤ (make_av_request attempt).requests
    ∧ (make_av_request attempt).requests ≤ MAX_RETRIES
    ∧ (make_av_request attempt).sleeps
        = List.replicate ((make_av_request attempt).requests - 1) RETRY_WAIT
    ∧ (make_av_request attempt).outcome
        = attempt ((make_av_request attempt).requests - 1)
    ∧ (∀ i, i + 1 < (make_av_request attempt).requests →
        ∃ e, attempt i = Except.error e)
    ∧ (∀ e, (make_av_request attempt).outcome = Except.error e →
        (make_av_request attempt).requests = MAX_RETRIES) := by
  rcases h0 : attempt 0 with e0 | r0
  · rcases h1 : attempt 1 with e1 | r1
    · rcases h2 : attempt 2 with e2 | r2
      · have ht : make_av_request attempt
            = ⟨3, [RETRY_WAIT, RETRY_WAIT], Except.error e2⟩ := by
          simp [make_av_request, avLoop, MAX_RETRIES, h0, h1, h2]
        rw [ht]
        refine ⟨(by omega : (1:ℕ) ≤ 3), (by omega : (3:ℕ) ≤ 3), rfl,
          h2.symm, ?_, fun e _ => rfl⟩
        intro i hi
        have hi2 : i + 1 < 3 := hi
        have hi3 : i < 2 := by omega
        interval_cases i
        · exact ⟨e0, h0⟩
        · exact ⟨e1, h1⟩
      · have ht : make_av_request attempt
            = ⟨3, [RETRY_WAIT, RETRY_WAIT], Except.ok r2⟩ := by
          simp [make_av_request, avLoop, MAX_RETRIES, h0, h1, h2]
        rw [ht]
        refine ⟨(by omega : (1:ℕ) ≤ 3), (by omega : (3:ℕ) ≤ 3), rfl,
          h2.symm, ?_, fun e he => Except.noConfusion he⟩
        intro i hi
        have hi2 : i + 1 < 3 := hi
        have hi3 : i < 2 := by omega
        interval_cases i
        · exact ⟨e0, h0⟩
        · exact ⟨e1, h1⟩
    · have ht : make_av_request attempt = ⟨2, [RETRY_WAIT], Except.ok r1⟩ := by
        simp [make_av_request, avLoop, MAX_RETRIES, h0, h1]
      rw [ht]
      refine ⟨(by omega : (1:ℕ) ≤ 2), (by omega : (2:ℕ) ≤ 3), rfl,
        h1.symm, ?_, fun e he => Except.noConfusion he⟩
      intro i hi
      have hi2 : i + 1 < 2 := hi
      have hi3 : i < 1 := by omega
      interval_cases i
      exact ⟨e0, h0⟩
  · have ht : make_av_request attempt = ⟨1, [], Except.ok r0⟩ := by
      simp [make_av_request, avLoop, MAX_RETRIES, h0]
    rw [ht]
    refine ⟨(by omega : (1:ℕ) ≤ 1), (by omega : (1:ℕ) ≤ 3), rfl,
      h0.symm, ?_, fun e he => Except.noConfusion he⟩
    intro i hi
    have hi2 : i + 1 < 1 := hi
    exact absurd hi2 (by omega)

/-- C2 witness: with every attempt failing, the amended theorem applies
and yields that exactly MAX_RETRIES requests were made. -/
theorem C2_retry_behavior_witness :
    (make_av_request C2fail).requests = MAX_RETRIES :=
  (C2_retry_behavior C2fail).2.2.2.2.2 "error 2" rfl

/-- C4: the claim says a symbol whose fetch failed is logged and
skipped while the remaining symbols are still posted.  In the source
the error-logging call
`"Error fetching symbol {} for ticker -- skipping: {}".format(msg)`
supplies one argument for two replacement fields, so CPython raises
IndexError inside `send_ticker`: nothing is posted to any channel even
though the MSFT fetch succeeded.  (Had it not raised, the following
`del results[symbol]` would delete the stale last loop symbol, not the
failed one.) -/
theorem C4_send_ticker_index_error :
    C4fetch "MSFT" = Except.ok 2
    ∧ send_ticker C4stocks ["#finance"] C4fetch
        = Except.error
            "IndexError: Replacement index 1 out of range for positional args tuple" :=
  ⟨rfl, rfl⟩

/-- C8: the claim says each entry of the ticker message shows the
change fetched for its own symbol.  The message loop of `send_ticker`
formats every entry with the stale local `change` (its loop variable is
`result`), so with AAPL fetched at 1 and MSFT at 2 both entries are
formatted with change 2. -/
theorem C8_same_change_for_all :
    C8fetch "AAPL" = Except.ok 1
    ∧ C8fetch "MSFT" = Except.ok 2
    ∧ send_ticker C4stocks ["#finance"] C8fetch
        = Except.ok [("#finance",
            format_symbol C4stocks "AAPL" 2 ++ " | "
              ++ format_symbol C4stocks "MSFT" 2)]
    ∧ format_symbol C4stocks "AAPL" 2 ≠ format_symbol C4stocks "AAPL" 1 :=
  ⟨rfl, rfl, rfl, by decide⟩

/-- C5: after every completed run of `do_predictions` the in-memory
predictions mapping is empty, however many per-symbol fetches failed:
per-symbol exceptions are caught and skipped inside the loop, and the
mapping is reassigned to a fresh empty defaultdict after it. -/
theorem C5_predictions_cleared (preds : Predictions)
    (channels : List String) (fetch : String → Except String DailyResult)
    (is_open : Bool) :
    (do_predictions preds channels fetch is_open).2 = [] := rfl

/-- C9: the claim says a `!predict` for a symbol the user already has a
stored prediction for completes, replaces it and reports the old one.
The `else` branch of the source formats the old prediction with
`old_datetime.strftime(...)` but the unpacked variable is `dt`;
`old_datetime` is never bound, so CPython raises NameError and neither
saves the new prediction nor sends any message. -/
theorem C9_predict_name_error :
    pLookup C9preds "AAPL" "alice" = some (0, 100, 110)
    ∧ predict C9preds "AAPL" "alice" 1 100 120 true
        = Except.error "NameError: name old_datetime is not defined" :=
  ⟨rfl, rfl⟩

/-- C3: `get_daily` searches backward from the current EST date at most
5 additional calendar days for the most recent date present in the
data; from the day before that date it searches backward at most 5
further days for the second date; if either search fails it raises.
Stated as: a successful run exhibits the two dates with exactly those
window bounds and maximality properties, an empty first window forces
an exception, and a found first date with an empty second window forces
an exception. -/
theorem C3_backward_search (data : ℤ → Option DayData) (now : ℤ) :
    (∀ res, get_daily data now = Except.ok res →
      ∃ d1 d2 : ℤ,
        (now - 5 ≤ d1 ∧ d1 ≤ now ∧ (data d1).isSome = true ∧
          (∀ d, d1 < d → d ≤ now → data d = none)) ∧
        (d1 - 6 ≤ d2 ∧ d2 ≤ d1 - 1 ∧ (data d2).isSome = true ∧
          (∀ d, d2 < d → d ≤ d1 - 1 → data d = none)))
    ∧ ((∀ d, now - 5 ≤ d → d ≤ now → data d = none) →
        ∃ e, get_daily data now = Except.error e)
    ∧ (∀ d1 : ℤ, now - 5 ≤ d1 → d1 ≤ now → (data d1).isSome = true →
        (∀ d, d1 < d → d ≤ now → data d = none) →
        (∀ d, d1 - 6 ≤ d → d ≤ d1 - 1 → data d = none) →
        ∃ e, get_daily data now = Except.error e) := by
  refine ⟨?_, ?_, ?_⟩
  · intro res h
    rcases hd1 : data (searchLoop data now 5) with _ | cv
    · rw [get_daily, hd1] at h
      cases h
    · rcases hd2 : data (searchLoop data (searchLoop data now 5 - 1) 5)
        with _ | lv
      · rw [get_daily, hd1, hd2] at h
        cases h
      · refine ⟨searchLoop data now 5,
          searchLoop data (searchLoop data now 5 - 1) 5,
          ⟨?_, searchLoop_le data 5 now, by rw [hd1]; rfl,
            fun d hda hdb => searchLoop_skipped data 5 now d hda hdb⟩,
          ⟨?_, ?_, by rw [hd2]; rfl,
            fun d hda hdb =>
              searchLoop_skipped data 5 (searchLoop data now 5 - 1) d hda hdb⟩⟩
        · have := searchLoop_ge data 5 now
          omega
        · have := searchLoop_ge data 5 (searchLoop data now 5 - 1)
          omega
        · exact searchLoop_le data 5 (searchLoop data now 5 - 1)
  · intro hall
    have ht : data (searchLoop data now 5) = none := by
      apply hall
      · have := searchLoop_ge data 5 now
        omega
      · exact searchLoop_le data 5 now
    refine ⟨"Cannot find data as far back as "
      ++ toString (searchLoop data now 5), ?_⟩
    rw [get_daily, ht]
  · intro d1 hb1 hb2 hs h4 h5
    have ht : searchLoop data now 5 = d1 :=
      searchLoop_eq_of_max data 5 now d1 (by omega) hb2 hs h4
    have hld : data (searchLoop data (d1 - 1) 5) = none := by
      apply h5
      · have := searchLoop_ge data 5 (d1 - 1)
        omega
      · exact searchLoop_le data 5 (d1 - 1)
    rcases hsome : data d1 with _ | cv
    · rw [hsome] at hs
      simp at hs
    · refine ⟨"Cannot find data as far back as "
        ++ toString (searchLoop data (searchLoop data now 5 - 1) 5), ?_⟩
      rw [get_daily, ht, hsome, hld]

/-- C3 witness: on a series with no data at all, `get_daily` raises. -/
theorem C3_backward_search_witness :
    ∃ e, get_daily (fun _ => none) 0 = Except.error e :=
  (C3_backward_search (fun _ => none) 0).2.1 (fun _ _ _ => rfl)

/-- C6: given a (truthy) api_key in the configuration, the constructor
raises if and only if more than 5 stock symbols are configured; any
configuration with at most 5 symbols is accepted. -/
theorem C6_init_symbol_limit (config : TickerConfig) (key : String)
    (hk : config.api_key = some key) (hk2 : key ≠ "") :
    (∃ e, plugin_init config = Except.error e) ↔
      5 < config.stocks.length := by
  unfold plugin_init
  rw [hk]
  simp only [Option.getD_some]
  rw [if_neg hk2]
  split_ifs with h
  · simp [h]
  · simp [h]

/-- C6 witness: a six-stock configuration with an api_key is rejected by
the constructor. -/
theorem C6_init_symbol_limit_witness :
    ∃ e, plugin_init C6config = Except.error e :=
  (C6_init_symbol_limit C6config "demo" rfl (by decide)).mpr (by decide)

/-- C7: `save_prediction` stores exactly (timestamp, base, prediction)
under predictions[symbol][nick] and leaves every other (symbol, nick)
entry of the mapping unchanged. -/
theorem C7_save_prediction_frame (preds : Predictions)
    (symbol nick : String) (now : ℤ) (base prediction : ℚ) :
    pLookup (save_prediction preds symbol nick now base prediction)
        symbol nick
      = some (now, base, prediction)
    ∧ ∀ s n, ¬(s = symbol ∧ n = nick) →
        pLookup (save_prediction preds symbol nick now base prediction) s n
          = pLookup preds s n := by
  constructor
  · rw [pLookup, save_prediction, dlookup_dictSet_self]
    simp only [Option.some_bind]
    exact dlookup_dictSet_self _ _ _
  · intro s n hsn
    by_cases hs : s = symbol
    · subst hs
      have hn : n ≠ nick := fun he => hsn ⟨rfl, he⟩
      rw [pLookup, save_prediction, dlookup_dictSet_self, pLookup]
      simp only [Option.some_bind]
      rw [dlookup_dictSet_ne _ _ _ _ hn]
      cases hin : dlookup preds s with
      | none => simp [hin, dlookup]
      | some inner => simp [hin]
    · rw [pLookup, save_prediction, dlookup_dictSet_ne _ _ _ _ hs, pLookup]

/-- C7 witness: saving the AAPL prediction of alice into the empty
mapping stores it there and leaves the MSFT slot of bob untouched. -/
theorem C7_save_prediction_frame_witness :
    pLookup (save_prediction [] "AAPL" "alice" 7 100 110) "AAPL" "alice"
      = some (7, 100, 110)
    ∧ pLookup (save_prediction [] "AAPL" "alice" 7 100 110) "MSFT" "bob"
      = pLookup [] "MSFT" "bob" :=
  ⟨(C7_save_prediction_frame [] "AAPL" "alice" 7 100 110).1,
   (C7_save_prediction_frame [] "AAPL" "alice" 7 100 110).2 "MSFT" "bob"
     (by decide)⟩

/-- C10: `colorize` returns the green (09) format if and only if the
percentage is strictly positive; a percentage of exactly zero is
rendered with the red (04) colour code. -/
theorem C10_colorize_sign :
    (∀ p : ℚ, colorize p = "\x0309" ++ formatFixed2 p ++ "%\x03" ↔ 0 < p)
    ∧ colorize 0 = "\x0304" ++ formatFixed2 0 ++ "%\x03" := by
  constructor
  · intro p
    constructor
    · intro h
      by_contra hp
      rw [colorize, if_neg hp] at h
      have hd := congrArg String.data h
      simp only [String.data_append] at hd
      simp only [List.cons_append, List.nil_append, List.cons.injEq] at hd
      exact absurd hd.2.2.1 (by decide)
    · intro hp
      rw [colorize, if_pos hp]
  · rfl

/-- C10 witness: a positive percentage is rendered green. -/
theorem C10_colorize_sign_witness :
    colorize 1 = "\x0309" ++ formatFixed2 1 ++ "%\x03" :=
  (C10_colorize_sign.1 1).mpr (by norm_num)

end Ticker
